import Mathlib

/-!
Verification development for RetroArch's `runloop_data.c` (the cooperative
background data runloop): a shallow embedding of the NBIO, image-decode and
HTTP pipelines, together with theorems about the spec's claims.

Modelling conventions:
* C structs become Lean structures with the same field names; `NULL`-able
  pointers become `Option`; machine integers become `Nat` (counters never
  approach 2^32/2^64 in any property below, so wraparound is immaterial)
  or `Int` for C `int` return codes.
* External collaborators (the nbio reader, the rpng decoder, the net_http
  transport, the menu driver) are not part of `runloop_data.c`; one tick's
  worth of their answers is packaged in an `Oracle`, so every theorem
  quantifies over all possible collaborator behaviour.
* Calls made to collaborators are recorded in an `Effects` record so that
  per-tick call-count bounds and callback-invocation facts can be stated.
* The null-pointer guards `if (!data) return -1;` on callback/state
  arguments are dropped: the embedding passes the state by value, so the
  argument always "points" at the state.
-/

/-- Process-phase result codes of the PNG decoder.  Modelled from the spec
(§4.3): `ProcessResult ∈ {NEXT, END, ERROR, ERROR_END}` with `NEXT` meaning
more work and `ERROR`/`ERROR_END` fatal; `rpng.h` is not part of the source
under consideration, so the concrete numeric values follow the decoder's
enum with `NEXT = 0` (the zero-initialised `processing_final_state` reads
as `NEXT`). -/
def IMAGE_PROCESS_ERROR : Int := -2

/-- Process-phase code: fatal error at end of processing. -/
def IMAGE_PROCESS_ERROR_END : Int := -1

/-- Process-phase code: more processing work remains. -/
def IMAGE_PROCESS_NEXT : Int := 0

/-- Process-phase code: processing finished successfully. -/
def IMAGE_PROCESS_END : Int := 1

/-- Capacity of every runloop message queue (`msg_queue_new(8)`). -/
def MSG_QUEUE_CAPACITY : Nat := 8

/-- Modelled from the spec: the bounded message queue (`msg_queue.c` is not
in the source tree).  Per §3/§4.1 it is a FIFO of textual requests with
fixed capacity 8; `push` appends and drops the newest on overflow; `pull`
removes and returns the head or `none`; `clear` empties the queue.  The
`(priority, duration)` metadata does not affect order in this model. -/
structure msg_queue_t where
  msgs : List String
deriving DecidableEq

/-- Push a message; on overflow the newest (this) message is discarded. -/
def msg_queue_push (q : msg_queue_t) (msg : String)
    (_prio _duration : Nat) : msg_queue_t :=
  if q.msgs.length < MSG_QUEUE_CAPACITY then ⟨q.msgs ++ [msg]⟩ else q

/-- Pull the head message, returning it together with the remaining queue. -/
def msg_queue_pull (q : msg_queue_t) : Option String × msg_queue_t :=
  match q.msgs with
  | [] => (none, q)
  | m :: rest => (some m, ⟨rest⟩)

/-- Remove all pending messages. -/
def msg_queue_clear (_q : msg_queue_t) : msg_queue_t := ⟨[]⟩

/-- Splitting a character list at `|` delimiters (helper for
`string_split_bar`; structural recursion keeps it kernel-computable). -/
def split_bar_aux (cur : List Char) : List Char → List (List Char)
  | [] => [cur.reverse]
  | c :: rest =>
    if c = '|' then cur.reverse :: split_bar_aux [] rest
    else split_bar_aux (c :: cur) rest

/-- Modelled from the spec: `string_split(str, "|")` (from the string-list
collaborator).  A request is `"A|B"` split at `|` tokens (§3, §6); like
`strtok`, empty tokens are skipped, so a missing or empty secondary part
yields a one-element list. -/
def string_split_bar (s : String) : List String :=
  ((split_bar_aux [] s.data).map (fun l => String.mk l)).filter
    (fun t => t ≠ "")

/-- First element of a split request (the primary path/URL), `""` when the
list is empty (the C `elem0` buffer is then left untouched). -/
def split_elem0 (l : List String) : String := (l.get? 0).getD ""

/-- Second element of a split request (the symbolic callback name), `none`
when absent (`str_list->size > 1` fails and the C buffer is not written). -/
def split_elem1 (l : List String) : Option String := l.get? 1

/-- The decoder state of `struct rpng_t` as used by `runloop_data.c`:
the buffer cursor `buff_data` (an offset into the nbio buffer), the current
chunk size, and the three chunk-presence flags. -/
structure rpng_t where
  buff_data : Nat
  chunk_size : Nat
  has_ihdr : Bool
  has_idat : Bool
  has_iend : Bool
deriving DecidableEq

/-- Zero-initialised decoder, as produced by `calloc`. -/
def zero_rpng : rpng_t :=
  { buff_data := 0, chunk_size := 0,
    has_ihdr := false, has_idat := false, has_iend := false }

/-- The `struct texture_image` output raster. -/
structure texture_image where
  pixels : List Nat
  width : Nat
  height : Nat
deriving DecidableEq

/-- Zero-initialised texture. -/
def zero_texture : texture_image :=
  { pixels := [], width := 0, height := 0 }

/-- The image-pipeline completion callbacks that can be bound to
`nbio->image.cb` (C function pointers become an enumeration). -/
inductive image_cb_t where
  | menu_wallpaper
  | menu_wallpaper_upload
deriving DecidableEq

/-- The NBIO completion callbacks that can be bound to `nbio->cb`. -/
inductive nbio_cb_t where
  | nbio_default
  | image_menu_wallpaper
deriving DecidableEq

/-- The HTTP body-completion callbacks from the static registry. -/
inductive http_cb_t where
  | core_updater_download
  | core_updater_list
deriving DecidableEq

/-- `struct nbio_image_handle` of `runloop_data.c`. -/
structure nbio_image_handle_t where
  ti : texture_image
  is_blocking : Bool
  is_blocking_on_processing : Bool
  is_finished : Bool
  is_finished_with_processing : Bool
  cb : Option image_cb_t
  handle : Option rpng_t
  processing_pos_increment : Nat
  pos_increment : Nat
  frame_count : Nat
  processing_frame_count : Nat
  processing_final_state : Int
  msg_queue : msg_queue_t
deriving DecidableEq

/-- `struct nbio_handle` of `runloop_data.c`; the opaque `struct nbio_t*`
reader handle carries no state that this file reads, so it is `Option Unit`. -/
structure nbio_handle_t where
  image : nbio_image_handle_t
  is_blocking : Bool
  is_finished : Bool
  cb : Option nbio_cb_t
  handle : Option Unit
  pos_increment : Nat
  frame_count : Nat
  msg_queue : msg_queue_t
deriving DecidableEq

/-- The `connection` sub-struct of `struct http_handle`; `cb` is a flag
because `cb_http_conn_default` is the only connection callback ever bound. -/
structure http_connection_state where
  handle : Option Unit
  cb : Bool
  elem1 : String
deriving DecidableEq

/-- `struct http_handle` of `runloop_data.c`. -/
structure http_handle_t where
  connection : http_connection_state
  msg_queue : msg_queue_t
  handle : Option Unit
  cb : Option http_cb_t
deriving DecidableEq

/-- One tick's worth of collaborator behaviour.  Indexed fields give the
answer of the i-th call to that collaborator within the tick; state-taking
fields let the external code mutate the struct it was handed, exactly as
the C collaborator may. -/
structure Oracle where
  nbio_open_ok : Bool
  nbio_iterate : Nat → Bool
  nbio_get_ptr : Option Nat
  rpng_alloc_ok : Bool
  rpng_start : rpng_t → Bool × rpng_t
  rpng_iterate : Nat → rpng_t → Bool × rpng_t
  rpng_proc : Nat → rpng_t → Int × rpng_t × texture_image
  menu_has_load_background : Bool
  http_conn_new_ok : Bool
  http_conn_iterate_done : Bool
  http_conn_done : Bool
  http_new_ok : Bool
  http_update_done : Bool
  http_data : Option (List Nat)

/-- Record of the collaborator calls a piece of runloop code performed.
`rpng_process_calls` counts the process-phase call site
(`rarch_main_data_image_iterate_process_transfer`);
`rpng_parse_process_calls` counts the one-shot call inside
`cb_image_menu_wallpaper`. -/
structure Effects where
  nbio_iterate_calls : Nat
  rpng_iterate_calls : Nat
  rpng_process_calls : Nat
  rpng_parse_process_calls : Nat
  load_background_calls : Nat
  texture_free_calls : Nat
  http_cb_calls : List (http_cb_t × List Nat × Nat)
deriving DecidableEq

/-- No collaborator calls. -/
def Effects.zero : Effects :=
  { nbio_iterate_calls := 0, rpng_iterate_calls := 0,
    rpng_process_calls := 0, rpng_parse_process_calls := 0,
    load_background_calls := 0, texture_free_calls := 0,
    http_cb_calls := [] }

/-- Accumulate the effects of two sequentially executed pieces of code. -/
def Effects.merge (a b : Effects) : Effects :=
  { nbio_iterate_calls := a.nbio_iterate_calls + b.nbio_iterate_calls,
    rpng_iterate_calls := a.rpng_iterate_calls + b.rpng_iterate_calls,
    rpng_process_calls := a.rpng_process_calls + b.rpng_process_calls,
    rpng_parse_process_calls :=
      a.rpng_parse_process_calls + b.rpng_parse_process_calls,
    load_background_calls :=
      a.load_background_calls + b.load_background_calls,
    texture_free_calls := a.texture_free_calls + b.texture_free_calls,
    http_cb_calls := a.http_cb_calls ++ b.http_cb_calls }

/-- Result of a runloop step function: C return code, updated state,
collaborator calls made. -/
structure NRes where
  ret : Int
  st : nbio_handle_t
  eff : Effects

/-- Result of an HTTP step function. -/
structure HRes where
  ret : Int
  st : http_handle_t
  eff : Effects

/-- `cb_nbio_default`: the default NBIO completion callback.  Note that it
sets `is_blocking` to `false` (source line 480), not `true`. -/
def cb_nbio_default (nbio : nbio_handle_t) : NRes :=
  { ret := 0,
    st := { nbio with is_blocking := false, is_finished := true },
    eff := Effects.zero }

/-- `cb_image_menu_wallpaper_upload`: the process-phase-done (upload)
callback.  On a recorded fatal `processing_final_state` it returns `-1`
before touching anything; otherwise it optionally hands the texture to the
menu driver, frees the texture, and sets the whole raft of finished flags. -/
def cb_image_menu_wallpaper_upload (o : Oracle) (nbio : nbio_handle_t) : NRes :=
  if nbio.image.processing_final_state = IMAGE_PROCESS_ERROR ∨
     nbio.image.processing_final_state = IMAGE_PROCESS_ERROR_END then
    { ret := -1, st := nbio, eff := Effects.zero }
  else
    { ret := 0,
      st := { nbio with
              image := { nbio.image with
                         is_blocking_on_processing := false,
                         is_finished_with_processing := true,
                         is_blocking := true,
                         is_finished := true },
              is_blocking := true,
              is_finished := true },
      eff := { Effects.zero with
               load_background_calls :=
                 if o.menu_has_load_background then 1 else 0,
               texture_free_calls := 1 } }

/-- `cb_image_menu_wallpaper`: the parse-phase-done callback.  Aborts when
any of IHDR/IDAT/IEND is missing; otherwise performs one process call and,
unless that call is fatal, installs the upload callback and arms the
process phase. -/
def cb_image_menu_wallpaper (o : Oracle) (nbio : nbio_handle_t) : NRes :=
  let r := nbio.image.handle.getD zero_rpng
  if r.has_ihdr = false ∨ r.has_idat = false ∨ r.has_iend = false then
    { ret := -1, st := nbio, eff := Effects.zero }
  else
    let pr := o.rpng_proc 0 r
    let retval := pr.1
    let nbio2 := { nbio with
                   image := { nbio.image with
                              handle := some pr.2.1, ti := pr.2.2 } }
    let eff := { Effects.zero with rpng_parse_process_calls := 1 }
    if retval = IMAGE_PROCESS_ERROR ∨ retval = IMAGE_PROCESS_ERROR_END then
      { ret := -1, st := nbio2, eff := eff }
    else
      { ret := 0,
        st := { nbio2 with
                image := { nbio2.image with
                           cb := some image_cb_t.menu_wallpaper_upload,
                           is_blocking_on_processing := true,
                           is_finished_with_processing := false,
                           is_finished := false } },
        eff := eff }

/-- `cb_nbio_image_menu_wallpaper`: the NBIO completion callback that
installs the image decoder over the freshly read buffer.  Allocation or
`nbio_get_ptr` failure resets `image.handle`/`image.cb`; a failing
`rpng_nbio_load_image_argb_start` frees the decoder but (as in the source)
does not null `image.handle`. -/
def cb_nbio_image_menu_wallpaper (o : Oracle) (nbio : nbio_handle_t) : NRes :=
  if o.rpng_alloc_ok = false then
    { ret := -1,
      st := { nbio with
              image := { nbio.image with handle := none, cb := none } },
      eff := Effects.zero }
  else
    let nbio1 := { nbio with
                   image := { nbio.image with
                              handle := some zero_rpng,
                              cb := some image_cb_t.menu_wallpaper } }
    match o.nbio_get_ptr with
    | none =>
        { ret := -1,
          st := { nbio1 with
                  image := { nbio1.image with handle := none, cb := none } },
          eff := Effects.zero }
    | some len =>
        let nbio2 := { nbio1 with
                       image := { nbio1.image with
                                  pos_increment :=
                                    if len / 2 = 0 then 1 else len / 2,
                                  processing_pos_increment :=
                                    if len / 4 = 0 then 1 else len / 4 } }
        let st := o.rpng_start zero_rpng
        let nbio3 := { nbio2 with
                       image := { nbio2.image with handle := some st.2 } }
        if st.1 = false then
          { ret := -1, st := nbio3, eff := Effects.zero }
        else
          { ret := 0,
            st := { nbio3 with
                    image := { nbio3.image with
                               is_blocking := false, is_finished := false },
                    is_blocking := false,
                    is_finished := true },
            eff := Effects.zero }

/-- Dispatch `nbio->cb(nbio, len)` through the callback enumeration. -/
def run_nbio_cb (o : Oracle) (cb : nbio_cb_t) (nbio : nbio_handle_t) : NRes :=
  match cb with
  | nbio_cb_t.nbio_default => cb_nbio_default nbio
  | nbio_cb_t.image_menu_wallpaper => cb_nbio_image_menu_wallpaper o nbio

/-- Dispatch `nbio->image.cb(nbio, len)`. -/
def run_image_cb (o : Oracle) (cb : image_cb_t) (nbio : nbio_handle_t) : NRes :=
  match cb with
  | image_cb_t.menu_wallpaper => cb_image_menu_wallpaper o nbio
  | image_cb_t.menu_wallpaper_upload => cb_image_menu_wallpaper_upload o nbio

/-- The `for (i = 0; i < pos_increment; i++)` loop of
`rarch_main_data_nbio_iterate_transfer`: `i` is the index of the next
`nbio_iterate` call this tick, the `Nat` argument the remaining trip count.
Returns whether a call returned `true` (end-of-stream / error, the C
`goto error`) together with the number of calls made. -/
def nbio_iterate_loop (o : Oracle) (i : Nat) : Nat → Bool × Nat
  | 0 => (false, 0)
  | n + 1 =>
    if o.nbio_iterate i then (true, 1)
    else
      let rest := nbio_iterate_loop o (i + 1) n
      (rest.1, rest.2 + 1)

/-- `rarch_main_data_nbio_iterate_transfer`: sets `pos_increment = 5`,
returns immediately when already finished, otherwise runs up to five
`nbio_iterate` steps; a `true` from the reader is the C `goto error`
(return `-1`), otherwise the frame counter is bumped. -/
def rarch_main_data_nbio_iterate_transfer (o : Oracle)
    (nbio : nbio_handle_t) : NRes :=
  let nbio := { nbio with pos_increment := 5 }
  if nbio.is_finished then { ret := 0, st := nbio, eff := Effects.zero }
  else
    let lp := nbio_iterate_loop o 0 5
    let eff := { Effects.zero with nbio_iterate_calls := lp.2 }
    if lp.1 then { ret := -1, st := nbio, eff := eff }
    else
      { ret := 0,
        st := { nbio with frame_count := nbio.frame_count + 1 },
        eff := eff }

/-- `rarch_main_data_nbio_iterate_parse`: invoke `nbio->cb` when bound. -/
def rarch_main_data_nbio_iterate_parse (o : Oracle)
    (nbio : nbio_handle_t) : NRes :=
  match nbio.cb with
  | none => { ret := 0, st := nbio, eff := Effects.zero }
  | some cb =>
      let r := run_nbio_cb o cb nbio
      { ret := 0, st := r.st, eff := r.eff }

/-- `rarch_main_data_nbio_iterate_parse_free`: refuse unless finished;
otherwise free the reader, reset the flags and frame counter, clear the
nbio queue. -/
def rarch_main_data_nbio_iterate_parse_free (nbio : nbio_handle_t) : NRes :=
  if nbio.is_finished = false then
    { ret := -1, st := nbio, eff := Effects.zero }
  else
    { ret := 0,
      st := { nbio with
              handle := none, is_blocking := false, is_finished := false,
              frame_count := 0,
              msg_queue := msg_queue_clear nbio.msg_queue },
      eff := Effects.zero }

/-- `rarch_main_data_nbio_iterate_poll`: pull a request, refuse when a
transfer is live, open the file, bind the default callback — replaced by
the image-decoder installer when the secondary token is
`"cb_menu_wallpaper"` — and begin reading. -/
def rarch_main_data_nbio_iterate_poll (o : Oracle)
    (nbio : nbio_handle_t) : NRes :=
  let pulled := msg_queue_pull nbio.msg_queue
  match pulled.1 with
  | none => { ret := -1, st := nbio, eff := Effects.zero }
  | some path =>
      let nbio := { nbio with msg_queue := pulled.2 }
      if nbio.handle.isSome then { ret := -1, st := nbio, eff := Effects.zero }
      else
        let str_list := string_split_bar path
        let elem1 := (split_elem1 str_list).getD ""
        if o.nbio_open_ok = false then
          { ret := -1, st := nbio, eff := Effects.zero }
        else
          let cb := if elem1 = "cb_menu_wallpaper"
                    then nbio_cb_t.image_menu_wallpaper
                    else nbio_cb_t.nbio_default
          { ret := 0,
            st := { nbio with
                    handle := some (), is_blocking := false,
                    is_finished := false, cb := some cb },
            eff := Effects.zero }

/-- `rarch_main_data_image_iterate_poll`: pull an image request, refuse
when a decode is live, then clear the nbio queue and push the same path
onto it (the bytes are routed through NBIO first). -/
def rarch_main_data_image_iterate_poll (nbio : nbio_handle_t) : NRes :=
  let pulled := msg_queue_pull nbio.image.msg_queue
  match pulled.1 with
  | none => { ret := -1, st := nbio, eff := Effects.zero }
  | some path =>
      let nbio := { nbio with image := { nbio.image with msg_queue := pulled.2 } }
      if nbio.image.handle.isSome then
        { ret := -1, st := nbio, eff := Effects.zero }
      else
        { ret := 0,
          st := { nbio with
                  msg_queue :=
                    msg_queue_push (msg_queue_clear nbio.msg_queue) path 0 1 },
          eff := Effects.zero }

/-- The parse-phase loop of `rarch_main_data_image_iterate_transfer`: each
step calls `rpng_nbio_load_image_argb_iterate` (which may mutate the
decoder) and, on success, advances the cursor by the PNG chunk stride
`4 + 4 + chunk.size + 4`.  Returns success, the final decoder state and
the number of calls made. -/
def image_iterate_loop (o : Oracle) (i : Nat) (r : rpng_t) :
    Nat → Bool × rpng_t × Nat
  | 0 => (true, r, 0)
  | n + 1 =>
    let st := o.rpng_iterate i r
    if st.1 = false then (false, st.2, 1)
    else
      let r2 := { st.2 with
                  buff_data := st.2.buff_data + 4 + 4 + st.2.chunk_size + 4 }
      let rest := image_iterate_loop o (i + 1) r2 n
      (rest.1, rest.2.1, rest.2.2 + 1)

/-- `rarch_main_data_image_iterate_transfer`: when not finished, run up to
`image.pos_increment` parse steps; a failing step is the C `goto error`. -/
def rarch_main_data_image_iterate_transfer (o : Oracle)
    (nbio : nbio_handle_t) : NRes :=
  if nbio.image.is_finished then { ret := 0, st := nbio, eff := Effects.zero }
  else
    let r := nbio.image.handle.getD zero_rpng
    let lp := image_iterate_loop o 0 r nbio.image.pos_increment
    let eff := { Effects.zero with rpng_iterate_calls := lp.2.2 }
    let nbio2 := { nbio with
                   image := { nbio.image with handle := some lp.2.1 } }
    if lp.1 = false then { ret := -1, st := nbio2, eff := eff }
    else
      { ret := 0,
        st := { nbio2 with
                image := { nbio2.image with
                           frame_count := nbio2.image.frame_count + 1 } },
        eff := eff }

/-- The process-phase loop of
`rarch_main_data_image_iterate_process_transfer`: repeated
`rpng_nbio_load_image_argb_process` calls, stopping at the first result
that is not `IMAGE_PROCESS_NEXT`.  The C `retval` starts at `0`
(= `IMAGE_PROCESS_NEXT`), which the zero-trip base case mirrors. -/
def image_process_loop (o : Oracle) (i : Nat) (r : rpng_t)
    (ti : texture_image) : Nat → Int × rpng_t × texture_image × Nat
  | 0 => (IMAGE_PROCESS_NEXT, r, ti, 0)
  | n + 1 =>
    let pr := o.rpng_proc i r
    if pr.1 ≠ IMAGE_PROCESS_NEXT then (pr.1, pr.2.1, pr.2.2, 1)
    else
      let rest := image_process_loop o (i + 1) pr.2.1 pr.2.2 n
      (rest.1, rest.2.1, rest.2.2.1, rest.2.2.2 + 1)

/-- `rarch_main_data_image_iterate_process_transfer`: run up to
`image.processing_pos_increment` process steps, bump the processing frame
counter, and on a non-`NEXT` result record it in
`processing_final_state` and return `-1`. -/
def rarch_main_data_image_iterate_process_transfer (o : Oracle)
    (nbio : nbio_handle_t) : NRes :=
  let r := nbio.image.handle.getD zero_rpng
  let lp := image_process_loop o 0 r nbio.image.ti
              nbio.image.processing_pos_increment
  let eff := { Effects.zero with rpng_process_calls := lp.2.2.2 }
  let nbio2 := { nbio with
                 image := { nbio.image with
                            handle := some lp.2.1, ti := lp.2.2.1,
                            processing_frame_count :=
                              nbio.image.processing_frame_count + 1 } }
  if lp.1 = IMAGE_PROCESS_NEXT then { ret := 0, st := nbio2, eff := eff }
  else
    { ret := -1,
      st := { nbio2 with
              image := { nbio2.image with processing_final_state := lp.1 } },
      eff := eff }

/-- `rarch_main_data_image_iterate_parse_free`: free the decoder, zero the
frame counters, clear the image queue (the four flags are left as they
are). -/
def rarch_main_data_image_iterate_parse_free (nbio : nbio_handle_t) : NRes :=
  { ret := 0,
    st := { nbio with
            image := { nbio.image with
                       handle := none, frame_count := 0,
                       processing_frame_count := 0,
                       msg_queue := msg_queue_clear nbio.image.msg_queue } },
    eff := Effects.zero }

/-- `rarch_main_data_image_iterate_process_transfer_parse`: invoke
`image.cb` when both the decoder and the callback are present. -/
def rarch_main_data_image_iterate_process_transfer_parse (o : Oracle)
    (nbio : nbio_handle_t) : NRes :=
  match nbio.image.handle, nbio.image.cb with
  | some _, some cb =>
      let r := run_image_cb o cb nbio
      { ret := 0, st := r.st, eff := r.eff }
  | _, _ => { ret := 0, st := nbio, eff := Effects.zero }

/-- `rarch_main_data_image_iterate_transfer_parse`: invoke `image.cb` when
both the decoder and the callback are present. -/
def rarch_main_data_image_iterate_transfer_parse (o : Oracle)
    (nbio : nbio_handle_t) : NRes :=
  match nbio.image.handle, nbio.image.cb with
  | some _, some cb =>
      let r := run_image_cb o cb nbio
      { ret := 0, st := r.st, eff := r.eff }
  | _, _ => { ret := 0, st := nbio, eff := Effects.zero }

/-- The first half of `rarch_main_data_nbio_iterate` (the
`if (nbio->handle) ... else poll` block): advance or tear down the file
transfer, or poll for a new request. -/
def nbio_iterate_file_phase (o : Oracle)
    (nbio : nbio_handle_t) : nbio_handle_t × Effects :=
  if nbio.handle.isSome then
    if nbio.is_blocking = false then
      let tr := rarch_main_data_nbio_iterate_transfer o nbio
      if tr.ret = -1 then
        let pa := rarch_main_data_nbio_iterate_parse o tr.st
        (pa.st, Effects.merge tr.eff pa.eff)
      else (tr.st, tr.eff)
    else if nbio.is_finished then
      ((rarch_main_data_nbio_iterate_parse_free nbio).st, Effects.zero)
    else (nbio, Effects.zero)
  else ((rarch_main_data_nbio_iterate_poll o nbio).st, Effects.zero)

/-- The second half of `rarch_main_data_nbio_iterate` (the
`if (nbio->image.handle) ... else poll` block): advance the image
sub-pipeline in whichever of its phases is active, or poll its queue. -/
def nbio_iterate_image_phase (o : Oracle)
    (nbio1 : nbio_handle_t) : nbio_handle_t × Effects :=
  if nbio1.image.handle.isSome then
    if nbio1.image.is_blocking_on_processing then
      let tr := rarch_main_data_image_iterate_process_transfer o nbio1
      if tr.ret = -1 then
        let pa := rarch_main_data_image_iterate_process_transfer_parse o tr.st
        (pa.st, Effects.merge tr.eff pa.eff)
      else (tr.st, tr.eff)
    else if nbio1.image.is_blocking = false then
      let tr := rarch_main_data_image_iterate_transfer o nbio1
      if tr.ret = -1 then
        let pa := rarch_main_data_image_iterate_transfer_parse o tr.st
        (pa.st, Effects.merge tr.eff pa.eff)
      else (tr.st, tr.eff)
    else if nbio1.image.is_finished then
      ((rarch_main_data_image_iterate_parse_free nbio1).st, Effects.zero)
    else (nbio1, Effects.zero)
  else ((rarch_main_data_image_iterate_poll nbio1).st, Effects.zero)

/-- `rarch_main_data_nbio_iterate`: one tick of the NBIO pipeline followed
by one tick of its image sub-pipeline, exactly in the source's branch
order. -/
def rarch_main_data_nbio_iterate (o : Oracle)
    (nbio : nbio_handle_t) : nbio_handle_t × Effects :=
  let step1 := nbio_iterate_file_phase o nbio
  let step2 := nbio_iterate_image_phase o step1.1
  (step2.1, Effects.merge step1.2 step2.2)

/-- `rarch_main_data_http_iterate_transfer`: `net_http_update` not done
yet means `-1` (continue next frame), done means `0`. -/
def rarch_main_data_http_iterate_transfer (o : Oracle)
    (_http : http_handle_t) : Int :=
  if o.http_update_done = false then -1 else 0

/-- `rarch_main_data_http_con_iterate_transfer`: connection phase step. -/
def rarch_main_data_http_con_iterate_transfer (o : Oracle)
    (_http : http_handle_t) : Int :=
  if o.http_conn_iterate_done = false then -1 else 0

/-- `cb_http_conn_default`: promote the finished connection to a transfer
via `net_http_new`; on failure the transfer handle is left null.  On
success the body callback is looked up by `connection.elem1` in the static
registry, `none` for unknown or empty names. -/
def cb_http_conn_default (o : Oracle) (http : http_handle_t) : HRes :=
  if o.http_new_ok = false then
    { ret := -1, st := { http with handle := none }, eff := Effects.zero }
  else
    let cb : Option http_cb_t :=
      if http.connection.elem1 = "cb_core_updater_download" then
        some http_cb_t.core_updater_download
      else if http.connection.elem1 = "cb_core_updater_list" then
        some http_cb_t.core_updater_list
      else none
    { ret := 0, st := { http with handle := some (), cb := cb },
      eff := Effects.zero }

/-- `rarch_main_data_http_conn_iterate_transfer_parse`: when
`net_http_connection_done` holds and a connection callback is bound, run
it; then free the connection handle and null it unconditionally. -/
def rarch_main_data_http_conn_iterate_transfer_parse (o : Oracle)
    (http : http_handle_t) : HRes :=
  let http1 :=
    if o.http_conn_done then
      if http.connection.handle.isSome ∧ http.connection.cb then
        (cb_http_conn_default o http).st
      else http
    else http
  { ret := 0,
    st := { http1 with
            connection := { http1.connection with handle := none } },
    eff := Effects.zero }

/-- `rarch_main_data_http_iterate_transfer_parse`: fetch the body with
`net_http_data`; when both body and callback are present, invoke the
callback with the bytes and their length; then delete the transfer, null
the handle and clear the HTTP queue. -/
def rarch_main_data_http_iterate_transfer_parse (o : Oracle)
    (http : http_handle_t) : HRes :=
  let eff :=
    match o.http_data, http.cb with
    | some body, some cb =>
        { Effects.zero with http_cb_calls := [(cb, body, body.length)] }
    | _, _ => Effects.zero
  { ret := 0,
    st := { http with
            handle := none, msg_queue := msg_queue_clear http.msg_queue },
    eff := eff }

/-- `rarch_main_data_http_iterate_poll`: pull a request (removing it from
the queue), refuse when a transfer handle is live, build a new connection,
bind `cb_http_conn_default`, and store the secondary token — the stored
`connection.elem1` keeps its previous contents when the request has no
secondary token (`str_list->size > 1` fails). -/
def rarch_main_data_http_iterate_poll (o : Oracle)
    (http : http_handle_t) : HRes :=
  let pulled := msg_queue_pull http.msg_queue
  match pulled.1 with
  | none => { ret := -1, st := http, eff := Effects.zero }
  | some url =>
      let http := { http with msg_queue := pulled.2 }
      if http.handle.isSome then
        { ret := -1, st := http, eff := Effects.zero }
      else
        let str_list := string_split_bar url
        if o.http_conn_new_ok = false then
          { ret := -1, st := http, eff := Effects.zero }
        else
          let elem1 :=
            match split_elem1 str_list with
            | some e => e
            | none => http.connection.elem1
          { ret := 0,
            st := { http with
                    connection :=
                      { handle := some (), cb := true, elem1 := elem1 } },
            eff := Effects.zero }

/-- `rarch_main_data_http_iterate`: connection phase (iterate, then parse
when done), then either the transfer phase — the handle possibly having
been created by the connection parse this same tick — or the poll. -/
def rarch_main_data_http_iterate (o : Oracle)
    (http : http_handle_t) : http_handle_t × Effects :=
  let http1 :=
    if http.connection.handle.isSome then
      if rarch_main_data_http_con_iterate_transfer o http = 0 then
        (rarch_main_data_http_conn_iterate_transfer_parse o http).st
      else http
    else http
  if http1.handle.isSome then
    if rarch_main_data_http_iterate_transfer o http1 = 0 then
      let pa := rarch_main_data_http_iterate_transfer_parse o http1
      (pa.st, pa.eff)
    else (http1, Effects.zero)
  else ((rarch_main_data_http_iterate_poll o http1).st, Effects.zero)

/-- `struct data_runloop` restricted to the pipeline state the claims are
about (the threading fields drive scheduling only). -/
structure data_runloop_t where
  http : http_handle_t
  nbio : nbio_handle_t
deriving DecidableEq

/-- `data_runloop_iterate` restricted to the data pipelines: one NBIO tick
(which advances the image sub-pipeline) followed by one HTTP tick. -/
def data_runloop_iterate (o : Oracle)
    (s : data_runloop_t) : data_runloop_t × Effects :=
  let n := rarch_main_data_nbio_iterate o s.nbio
  let h := rarch_main_data_http_iterate o s.http
  ({ nbio := n.1, http := h.1 }, Effects.merge n.2 h.2)

/-- The `type` selector of `rarch_main_data_msg_queue_push`. -/
inductive data_type_t where
  | DATA_TYPE_NONE
  | DATA_TYPE_FILE
  | DATA_TYPE_IMAGE
  | DATA_TYPE_HTTP
  | DATA_TYPE_OVERLAY
deriving DecidableEq

/-- `rarch_main_data_msg_queue_push`: build `"msg|msg2"`, select the queue
by type (`NONE`/`OVERLAY` route nowhere), clear it when `flush` is set,
then push. -/
def rarch_main_data_msg_queue_push (ty : data_type_t) (msg msg2 : String)
    (prio duration : Nat) (flush : Bool)
    (s : data_runloop_t) : data_runloop_t :=
  let new_msg := msg ++ "|" ++ msg2
  match ty with
  | data_type_t.DATA_TYPE_FILE =>
      let q := if flush then msg_queue_clear s.nbio.msg_queue
               else s.nbio.msg_queue
      { s with nbio := { s.nbio with
                         msg_queue := msg_queue_push q new_msg prio duration } }
  | data_type_t.DATA_TYPE_IMAGE =>
      let q := if flush then msg_queue_clear s.nbio.image.msg_queue
               else s.nbio.image.msg_queue
      { s with nbio := { s.nbio with
                         image := { s.nbio.image with
                                    msg_queue :=
                                      msg_queue_push q new_msg prio duration } } }
  | data_type_t.DATA_TYPE_HTTP =>
      let q := if flush then msg_queue_clear s.http.msg_queue
               else s.http.msg_queue
      { s with http := { s.http with
                         msg_queue := msg_queue_push q new_msg prio duration } }
  | _ => s

/-- The zero state `memset(&g_data_runloop, 0, ...)` of `rarch_main_data_init`
(queues allocated empty by `rarch_main_data_init_queues`). -/
def zero_image_state : nbio_image_handle_t :=
  { ti := zero_texture, is_blocking := false,
    is_blocking_on_processing := false, is_finished := false,
    is_finished_with_processing := false, cb := none, handle := none,
    processing_pos_increment := 0, pos_increment := 0, frame_count := 0,
    processing_frame_count := 0, processing_final_state := 0,
    msg_queue := ⟨[]⟩ }

/-- Zeroed NBIO pipeline state. -/
def zero_nbio_state : nbio_handle_t :=
  { image := zero_image_state, is_blocking := false, is_finished := false,
    cb := none, handle := none, pos_increment := 0, frame_count := 0,
    msg_queue := ⟨[]⟩ }

/-- Zeroed HTTP pipeline state. -/
def zero_http_state : http_handle_t :=
  { connection := { handle := none, cb := false, elem1 := "" },
    msg_queue := ⟨[]⟩, handle := none, cb := none }

/-- Zeroed runloop. -/
def zero_runloop : data_runloop_t :=
  { http := zero_http_state, nbio := zero_nbio_state }

/-- The runloop states reachable from the freshly initialised runloop by
any interleaving of external pushes and ticks, under every possible
collaborator behaviour. -/
inductive Reachable : data_runloop_t → Prop where
  | init : Reachable zero_runloop
  | tick : ∀ {s : data_runloop_t} (o : Oracle),
      Reachable s → Reachable (data_runloop_iterate o s).1
  | push : ∀ {s : data_runloop_t} (ty : data_type_t) (msg msg2 : String)
      (prio duration : Nat) (flush : Bool),
      Reachable s →
      Reachable (rarch_main_data_msg_queue_push ty msg msg2 prio duration flush s)

/-- A benign collaborator: everything succeeds, the reader never reaches
end-of-stream, the file buffer has length 10, process finishes at once,
the HTTP body is empty. -/
def oracle0 : Oracle :=
  { nbio_open_ok := true, nbio_iterate := fun _ => false,
    nbio_get_ptr := some 10, rpng_alloc_ok := true,
    rpng_start := fun r => (true, r),
    rpng_iterate := fun _ r => (true, r),
    rpng_proc := fun _ r => (IMAGE_PROCESS_END, r, zero_texture),
    menu_has_load_background := true,
    http_conn_new_ok := true, http_conn_iterate_done := true,
    http_conn_done := true, http_new_ok := true, http_update_done := true,
    http_data := some [] }

/-- Like `oracle0` but the reader signals end-of-stream immediately. -/
def oracle_end_now : Oracle := { oracle0 with nbio_iterate := fun _ => true }

/-- Like `oracle0` but `net_http_connection_done` answers `false`. -/
def oracle_conn_not_done : Oracle := { oracle0 with http_conn_done := false }

/-- Like `oracle0` but `net_http_new` fails. -/
def oracle_no_transfer : Oracle := { oracle0 with http_new_ok := false }

/-- Like `oracle0` but the file buffer has length 3. -/
def oracle_len3 : Oracle := { oracle0 with nbio_get_ptr := some 3 }

/-- Scenario state: a plain file request has just been pushed. -/
def c1_s1 : data_runloop_t :=
  rarch_main_data_msg_queue_push data_type_t.DATA_TYPE_FILE
    "a.bin" "" 0 0 false zero_runloop

/-- Scenario state: the request was polled; the reader handle is live with
the default callback bound. -/
def c1_s2 : data_runloop_t := (data_runloop_iterate oracle0 c1_s1).1

/-- Scenario state: the reader signalled end-of-stream, so the transfer
fell through to the parse step and `cb_nbio_default` ran. -/
def c1_s3 : data_runloop_t := (data_runloop_iterate oracle_end_now c1_s2).1

/-- Scenario state: one further tick after completion. -/
def c1_s4 : data_runloop_t := (data_runloop_iterate oracle_end_now c1_s3).1

/-- An image state whose process phase just recorded a fatal result and
whose upload callback is about to be invoked. -/
def c2_state : nbio_handle_t :=
  { zero_nbio_state with
    image := { zero_image_state with
               handle := some zero_rpng,
               cb := some image_cb_t.menu_wallpaper_upload,
               is_blocking_on_processing := true,
               processing_final_state := IMAGE_PROCESS_ERROR } }

/-- An HTTP state with a live transfer handle and one queued request. -/
def c3_state : http_handle_t :=
  { zero_http_state with
    handle := some (),
    msg_queue := ⟨["u|cb_core_updater_list"]⟩ }

/-- An NBIO state whose file transfer is live with the image-decoder
installer bound (a `cb_menu_wallpaper` request mid-flight). -/
def c7_state : nbio_handle_t :=
  { zero_nbio_state with
    handle := some (),
    cb := some nbio_cb_t.image_menu_wallpaper }

/-- An NBIO state with one queued image request and no live decode. -/
def c7_poll_state : nbio_handle_t :=
  { zero_nbio_state with
    image := { zero_image_state with msg_queue := ⟨["wall.png"]⟩ },
    msg_queue := ⟨["old1", "old2"]⟩ }

/-- An image state at parse-done whose decoder saw no IHDR/IDAT/IEND. -/
def c8_state : nbio_handle_t :=
  { zero_nbio_state with
    image := { zero_image_state with
               handle := some zero_rpng,
               cb := some image_cb_t.menu_wallpaper } }

/-- An HTTP state whose transfer just completed with a bound callback. -/
def c9_state : http_handle_t :=
  { zero_http_state with
    handle := some (),
    cb := some http_cb_t.core_updater_list,
    msg_queue := ⟨["u2|cb_core_updater_list"]⟩ }

/-- An HTTP state in the connection phase with the connection callback
bound (as `rarch_main_data_http_iterate_poll` leaves it). -/
def c10_state : http_handle_t :=
  { zero_http_state with
    connection := { handle := some (), cb := true,
                    elem1 := "cb_core_updater_list" } }

/-- The C4 invariant: the image sub-pipeline is never simultaneously
blocking on its primary transfer and blocking on processing. -/
def image_flags_ok (n : nbio_handle_t) : Prop :=
  ¬(n.image.is_blocking = true ∧ n.image.is_blocking_on_processing = true)

/-- C1: the spec claims the default NBIO callback sets `is_blocking=true`
and `is_finished=true` so that one more tick runs `parse_free`, leaving
`handle=none`, `frame_count=0` and the queue empty.  Evaluating the code
at the failing input: after the end-of-stream tick the state has
`is_finished = true` but `is_blocking = false` (source line 480), and
after one more tick the reader handle is still live —
`rarch_main_data_nbio_iterate_parse_free` never runs and the NBIO
pipeline is wedged. -/
theorem nbio_default_cb_wedges_pipeline :
    c1_s2.nbio.handle = some () ∧
    c1_s2.nbio.cb = some nbio_cb_t.nbio_default ∧
    c1_s3.nbio.is_finished = true ∧
    c1_s3.nbio.is_blocking = false ∧
    c1_s4.nbio.handle = some () ∧
    c1_s4.nbio.is_blocking = false ∧
    c1_s4.nbio.is_finished = true := by decide

/-- C2 counterexample: with `processing_final_state = IMAGE_PROCESS_ERROR`
the upload callback performs zero `texture_image_free` calls and leaves
every finished flag `false`, contradicting the claim that `texture_free`
is still called and all finished flags end `true`. -/
theorem upload_cb_error_skips_teardown_cx :
    (cb_image_menu_wallpaper_upload oracle0 c2_state).eff.texture_free_calls = 0 ∧
    (cb_image_menu_wallpaper_upload oracle0 c2_state).eff.load_background_calls = 0 ∧
    (cb_image_menu_wallpaper_upload oracle0 c2_state).st.image.is_finished = false ∧
    (cb_image_menu_wallpaper_upload oracle0 c2_state).st.image.is_finished_with_processing = false ∧
    (cb_image_menu_wallpaper_upload oracle0 c2_state).st.is_finished = false := by
  decide

/-- C2 (amended): when the recorded process result is `ERROR` or
`ERROR_END`, `cb_image_menu_wallpaper_upload` returns `-1` immediately:
it calls neither `load_background` nor `texture_image_free` and leaves
the state — all blocking/finished flags included — completely unchanged,
so the image is not torn down by the callback. -/
theorem upload_cb_on_decode_error_is_inert (o : Oracle) (nbio : nbio_handle_t)
    (h : nbio.image.processing_final_state = IMAGE_PROCESS_ERROR ∨
         nbio.image.processing_final_state = IMAGE_PROCESS_ERROR_END) :
    cb_image_menu_wallpaper_upload o nbio =
      { ret := -1, st := nbio, eff := Effects.zero } := by
  unfold cb_image_menu_wallpaper_upload
  rw [if_pos h]

/-- C2 witness: the amended theorem applied at the concrete error state. -/
theorem upload_cb_on_decode_error_is_inert_witness :
    cb_image_menu_wallpaper_upload oracle0 c2_state =
      { ret := -1, st := c2_state, eff := Effects.zero } :=
  upload_cb_on_decode_error_is_inert oracle0 c2_state (Or.inl rfl)

/-- C3 counterexample: polling while the transfer handle is live returns
`-1` but the queued request is gone from the HTTP queue, contradicting
the claim that it remains available for a later tick. -/
theorem http_poll_busy_drops_request_cx :
    (rarch_main_data_http_iterate_poll oracle0 c3_state).ret = -1 ∧
    (rarch_main_data_http_iterate_poll oracle0 c3_state).st.msg_queue.msgs = [] := by
  decide

/-- C3 (amended): when the HTTP poll runs while a transfer handle is live,
it returns failure, but the queued request has already been pulled off the
message queue and is dropped — only the tail of the queue remains, so the
request is not available on a later tick. -/
theorem http_poll_busy_consumes_request (o : Oracle) (http : http_handle_t)
    (url : String) (rest : List String)
    (hq : http.msg_queue.msgs = url :: rest)
    (hh : http.handle.isSome = true) :
    rarch_main_data_http_iterate_poll o http =
      { ret := -1, st := { http with msg_queue := ⟨rest⟩ },
        eff := Effects.zero } := by
  unfold rarch_main_data_http_iterate_poll
  simp only [msg_queue_pull, hq, hh, if_true]

/-- C3 witness: the amended theorem applied at the concrete busy state. -/
theorem http_poll_busy_consumes_request_witness :
    rarch_main_data_http_iterate_poll oracle0 c3_state =
      { ret := -1, st := { c3_state with msg_queue := ⟨[]⟩ },
        eff := Effects.zero } :=
  http_poll_busy_consumes_request oracle0 c3_state
    "u|cb_core_updater_list" [] rfl rfl

/-- C8: at image parse-done, if any of the decoder's IHDR/IDAT/IEND flags
is missing, `cb_image_menu_wallpaper` returns `-1` with zero
`rpng_nbio_load_image_argb_process` calls and the state unchanged — in
particular `image.cb` is not replaced by the upload callback, so the
upload callback cannot run for this buffer. -/
theorem parse_done_missing_chunks_aborts (o : Oracle) (nbio : nbio_handle_t)
    (r : rpng_t) (hh : nbio.image.handle = some r)
    (hm : r.has_ihdr = false ∨ r.has_idat = false ∨ r.has_iend = false) :
    cb_image_menu_wallpaper o nbio =
      { ret := -1, st := nbio, eff := Effects.zero } := by
  unfold cb_image_menu_wallpaper
  rw [hh, Option.getD_some, if_pos hm]

/-- C8 witness: the theorem applied at a zeroed decoder. -/
theorem parse_done_missing_chunks_aborts_witness :
    cb_image_menu_wallpaper oracle0 c8_state =
      { ret := -1, st := c8_state, eff := Effects.zero } :=
  parse_done_missing_chunks_aborts oracle0 c8_state zero_rpng rfl
    (Or.inl rfl)

/-- C9: the HTTP transfer parse step always deletes the transfer (handle
becomes `none`) and clears the HTTP queue; and whenever `net_http_data`
yields a body — the empty body included — and a completion callback is
bound, that callback is invoked exactly once with the body bytes and
their length. -/
theorem http_transfer_parse_delivers_and_clears (o : Oracle)
    (http : http_handle_t) :
    (rarch_main_data_http_iterate_transfer_parse o http).st.handle = none ∧
    (rarch_main_data_http_iterate_transfer_parse o http).st.msg_queue.msgs = [] ∧
    (∀ body cb, o.http_data = some body → http.cb = some cb →
      (rarch_main_data_http_iterate_transfer_parse o http).eff.http_cb_calls =
        [(cb, body, body.length)]) := by
  refine ⟨rfl, rfl, ?_⟩
  intro body cb hb hcb
  unfold rarch_main_data_http_iterate_transfer_parse
  simp only [hb, hcb]

/-- C9 witness: the callback-invocation conjunct applied at the concrete
completed transfer with an empty body, plus the teardown conjuncts. -/
theorem http_transfer_parse_delivers_and_clears_witness :
    (rarch_main_data_http_iterate_transfer_parse oracle0 c9_state).st.handle = none ∧
    (rarch_main_data_http_iterate_transfer_parse oracle0 c9_state).st.msg_queue.msgs = [] ∧
    (rarch_main_data_http_iterate_transfer_parse oracle0 c9_state).eff.http_cb_calls =
      [(http_cb_t.core_updater_list, [], 0)] :=
  ⟨(http_transfer_parse_delivers_and_clears oracle0 c9_state).1,
   (http_transfer_parse_delivers_and_clears oracle0 c9_state).2.1,
   (http_transfer_parse_delivers_and_clears oracle0 c9_state).2.2 []
     http_cb_t.core_updater_list rfl rfl⟩

/-- C10: once the connection phase reports done, the connection parse step
frees and nulls the connection handle unconditionally; when
`net_http_connection_done` answers `false` the promotion callback is not
invoked (the transfer handle and body callback are untouched), and when
it answers `true` but `net_http_new` fails, the transfer handle ends
`none` — in both cases no transfer exists for the request, which was
already consumed from the queue at poll time. -/
theorem conn_parse_nulls_connection (o : Oracle) (http : http_handle_t)
    (hc : http.connection.handle = some ())
    (hcb : http.connection.cb = true) :
    (rarch_main_data_http_conn_iterate_transfer_parse o http).st.connection.handle = none ∧
    (o.http_conn_done = false →
      (rarch_main_data_http_conn_iterate_transfer_parse o http).st.handle = http.handle ∧
      (rarch_main_data_http_conn_iterate_transfer_parse o http).st.cb = http.cb) ∧
    (o.http_conn_done = true → o.http_new_ok = false →
      (rarch_main_data_http_conn_iterate_transfer_parse o http).st.handle = none) := by
  refine ⟨rfl, ?_, ?_⟩
  · intro hdone
    unfold rarch_main_data_http_conn_iterate_transfer_parse
    rw [hdone]
    exact ⟨rfl, rfl⟩
  · intro hdone hnew
    unfold rarch_main_data_http_conn_iterate_transfer_parse
      cb_http_conn_default
    simp only [hdone, hc, hcb, hnew, if_true, Option.isSome_some, and_self]

/-- C10 witness: the theorem's failure conjuncts applied at the concrete
connection state under both failing collaborators. -/
theorem conn_parse_nulls_connection_witness :
    (rarch_main_data_http_conn_iterate_transfer_parse oracle_conn_not_done
       c10_state).st.handle = none ∧
    (rarch_main_data_http_conn_iterate_transfer_parse oracle_no_transfer
       c10_state).st.handle = none ∧
    (rarch_main_data_http_conn_iterate_transfer_parse oracle0
       c10_state).st.connection.handle = none :=
  ⟨((conn_parse_nulls_connection oracle_conn_not_done c10_state rfl
       rfl).2.1 rfl).1.trans rfl,
   (conn_parse_nulls_connection oracle_no_transfer c10_state rfl rfl).2.2
     rfl rfl,
   (conn_parse_nulls_connection oracle0 c10_state rfl rfl).1⟩

/-- C6: installing the image decoder for a buffer of length `len` sets
`image.pos_increment` to `len / 2` floored at 1 and
`image.processing_pos_increment` to `len / 4` floored at 1; in particular
they are 1 whenever `len < 2` resp. `len < 4`. -/
theorem image_decoder_pos_increments (o : Oracle) (nbio : nbio_handle_t)
    (len : Nat) (halloc : o.rpng_alloc_ok = true)
    (hptr : o.nbio_get_ptr = some len) :
    (cb_nbio_image_menu_wallpaper o nbio).st.image.pos_increment =
      max (len / 2) 1 ∧
    (cb_nbio_image_menu_wallpaper o nbio).st.image.processing_pos_increment =
      max (len / 4) 1 ∧
    (len < 2 → (cb_nbio_image_menu_wallpaper o nbio).st.image.pos_increment = 1) ∧
    (len < 4 →
      (cb_nbio_image_menu_wallpaper o nbio).st.image.processing_pos_increment = 1) := by
  have key : (cb_nbio_image_menu_wallpaper o nbio).st.image.pos_increment =
      (if len / 2 = 0 then 1 else len / 2) ∧
      (cb_nbio_image_menu_wallpaper o nbio).st.image.processing_pos_increment =
      (if len / 4 = 0 then 1 else len / 4) := by
    unfold cb_nbio_image_menu_wallpaper
    simp only [halloc, hptr]
    cases hst : (o.rpng_start zero_rpng).1 <;> simp [hst]
  have h1 : (if len / 2 = 0 then 1 else len / 2) = max (len / 2) 1 := by
    rcases Nat.eq_zero_or_pos (len / 2) with h | h
    · simp [h]
    · rw [if_neg (Nat.pos_iff_ne_zero.mp h), Nat.max_eq_left h]
  have h2 : (if len / 4 = 0 then 1 else len / 4) = max (len / 4) 1 := by
    rcases Nat.eq_zero_or_pos (len / 4) with h | h
    · simp [h]
    · rw [if_neg (Nat.pos_iff_ne_zero.mp h), Nat.max_eq_left h]
  refine ⟨key.1.trans h1, key.2.trans h2, ?_, ?_⟩
  · intro hlt
    rw [key.1, Nat.div_eq_of_lt hlt, if_pos rfl]
  · intro hlt
    rw [key.2, Nat.div_eq_of_lt hlt, if_pos rfl]

/-- C6 witness: the theorem applied at `len = 3`. -/
theorem image_decoder_pos_increments_witness :
    (cb_nbio_image_menu_wallpaper oracle_len3
       zero_nbio_state).st.image.pos_increment = max (3 / 2) 1 ∧
    (cb_nbio_image_menu_wallpaper oracle_len3
       zero_nbio_state).st.image.processing_pos_increment = max (3 / 4) 1 :=
  ⟨(image_decoder_pos_increments oracle_len3 zero_nbio_state 3 rfl rfl).1,
   (image_decoder_pos_increments oracle_len3 zero_nbio_state 3 rfl rfl).2.1⟩

theorem nbio_transfer_image_eq (o : Oracle) (n : nbio_handle_t) :
    (rarch_main_data_nbio_iterate_transfer o n).st.image = n.image := by
  unfold rarch_main_data_nbio_iterate_transfer
  dsimp only
  (repeat' split) <;> rfl

theorem nbio_parse_free_image_eq (n : nbio_handle_t) :
    (rarch_main_data_nbio_iterate_parse_free n).st.image = n.image := by
  unfold rarch_main_data_nbio_iterate_parse_free
  split <;> rfl

theorem nbio_poll_image_eq (o : Oracle) (n : nbio_handle_t) :
    (rarch_main_data_nbio_iterate_poll o n).st.image = n.image := by
  unfold rarch_main_data_nbio_iterate_poll msg_queue_pull
  dsimp only
  (repeat' split) <;> rfl

theorem cb_nbio_image_menu_wallpaper_flags (o : Oracle) (n : nbio_handle_t) :
    (cb_nbio_image_menu_wallpaper o n).st.image.is_blocking_on_processing =
      n.image.is_blocking_on_processing ∧
    ((cb_nbio_image_menu_wallpaper o n).st.image.is_blocking =
       n.image.is_blocking ∨
     (cb_nbio_image_menu_wallpaper o n).st.image.is_blocking = false) := by
  unfold cb_nbio_image_menu_wallpaper
  dsimp only
  (repeat' split) <;> simp

theorem flags_ok_nbio_parse (o : Oracle) (n : nbio_handle_t)
    (h : image_flags_ok n) :
    image_flags_ok (rarch_main_data_nbio_iterate_parse o n).st := by
  unfold rarch_main_data_nbio_iterate_parse run_nbio_cb
  match hcb : n.cb with
  | none => exact h
  | some nbio_cb_t.nbio_default => exact h
  | some nbio_cb_t.image_menu_wallpaper =>
      have hf := cb_nbio_image_menu_wallpaper_flags o n
      unfold image_flags_ok at *
      rcases hf.2 with h2 | h2 <;> simp_all

theorem flags_ok_file_phase (o : Oracle) (n : nbio_handle_t)
    (h : image_flags_ok n) :
    image_flags_ok (nbio_iterate_file_phase o n).1 := by
  unfold nbio_iterate_file_phase
  dsimp only
  split
  · split
    · split
      · exact flags_ok_nbio_parse o _
          (by unfold image_flags_ok at *
              rw [nbio_transfer_image_eq]
              exact h)
      · unfold image_flags_ok at *
        rw [nbio_transfer_image_eq]
        exact h
    · split
      · unfold image_flags_ok at *
        rw [nbio_parse_free_image_eq]
        exact h
      · exact h
  · unfold image_flags_ok at *
    rw [nbio_poll_image_eq]
    exact h

theorem image_transfer_flags_eq (o : Oracle) (n : nbio_handle_t) :
    (rarch_main_data_image_iterate_transfer o n).st.image.is_blocking =
      n.image.is_blocking ∧
    (rarch_main_data_image_iterate_transfer o n).st.image.is_blocking_on_processing =
      n.image.is_blocking_on_processing := by
  unfold rarch_main_data_image_iterate_transfer
  dsimp only
  (repeat' split) <;> simp

theorem image_process_transfer_flags_eq (o : Oracle) (n : nbio_handle_t) :
    (rarch_main_data_image_iterate_process_transfer o n).st.image.is_blocking =
      n.image.is_blocking ∧
    (rarch_main_data_image_iterate_process_transfer o n).st.image.is_blocking_on_processing =
      n.image.is_blocking_on_processing := by
  unfold rarch_main_data_image_iterate_process_transfer
  dsimp only
  (repeat' split) <;> simp

theorem flags_ok_run_image_cb (o : Oracle) (cb : image_cb_t)
    (n : nbio_handle_t) (h : n.image.is_blocking = false) :
    image_flags_ok (run_image_cb o cb n).st := by
  unfold image_flags_ok
  unfold run_image_cb cb_image_menu_wallpaper cb_image_menu_wallpaper_upload
  cases cb <;> dsimp only <;> (repeat' split) <;> simp_all

theorem flags_ok_image_transfer_parse (o : Oracle) (n : nbio_handle_t)
    (h : n.image.is_blocking = false) :
    image_flags_ok (rarch_main_data_image_iterate_transfer_parse o n).st := by
  unfold rarch_main_data_image_iterate_transfer_parse
  match n.image.handle, n.image.cb with
  | some _, some cb => exact flags_ok_run_image_cb o cb n h
  | some _, none => exact fun hc => by simp [h] at hc
  | none, _ => exact fun hc => by simp [h] at hc

theorem flags_ok_image_process_transfer_parse (o : Oracle) (n : nbio_handle_t)
    (h : n.image.is_blocking = false) :
    image_flags_ok (rarch_main_data_image_iterate_process_transfer_parse o n).st := by
  unfold rarch_main_data_image_iterate_process_transfer_parse
  match n.image.handle, n.image.cb with
  | some _, some cb => exact flags_ok_run_image_cb o cb n h
  | some _, none => exact fun hc => by simp [h] at hc
  | none, _ => exact fun hc => by simp [h] at hc

theorem image_parse_free_flags_eq (n : nbio_handle_t) :
    (rarch_main_data_image_iterate_parse_free n).st.image.is_blocking =
      n.image.is_blocking ∧
    (rarch_main_data_image_iterate_parse_free n).st.image.is_blocking_on_processing =
      n.image.is_blocking_on_processing := ⟨rfl, rfl⟩

theorem image_poll_image_flags_eq (n : nbio_handle_t) :
    (rarch_main_data_image_iterate_poll n).st.image.is_blocking =
      n.image.is_blocking ∧
    (rarch_main_data_image_iterate_poll n).st.image.is_blocking_on_processing =
      n.image.is_blocking_on_processing := by
  unfold rarch_main_data_image_iterate_poll msg_queue_pull
  dsimp only
  (repeat' split) <;> simp

theorem flags_ok_image_phase (o : Oracle) (n : nbio_handle_t)
    (h : image_flags_ok n) :
    image_flags_ok (nbio_iterate_image_phase o n).1 := by
  unfold nbio_iterate_image_phase
  dsimp only
  split
  · split
    · -- blocking-on-processing branch: is_blocking must be false
      rename_i hbop
      have hb : n.image.is_blocking = false := by
        unfold image_flags_ok at h
        by_contra hb
        exact h ⟨by simpa using hb, hbop⟩
      split
      · exact flags_ok_image_process_transfer_parse o _
          (by rw [(image_process_transfer_flags_eq o n).1]; exact hb)
      · unfold image_flags_ok
        rw [(image_process_transfer_flags_eq o n).1,
            (image_process_transfer_flags_eq o n).2]
        exact h
    · split
      · rename_i hnb
        have hb : n.image.is_blocking = false := by
          simpa using hnb
        split
        · exact flags_ok_image_transfer_parse o _
            (by rw [(image_transfer_flags_eq o n).1]; exact hb)
        · unfold image_flags_ok
          rw [(image_transfer_flags_eq o n).1, (image_transfer_flags_eq o n).2]
          exact h
      · split
        · unfold image_flags_ok
          rw [(image_parse_free_flags_eq n).1, (image_parse_free_flags_eq n).2]
          exact h
        · exact h
  · unfold image_flags_ok
    rw [(image_poll_image_flags_eq n).1, (image_poll_image_flags_eq n).2]
    exact h

theorem push_nbio_image_flags_eq (ty : data_type_t) (msg msg2 : String)
    (prio duration : Nat) (flush : Bool) (s : data_runloop_t) :
    (rarch_main_data_msg_queue_push ty msg msg2 prio duration flush
       s).nbio.image.is_blocking = s.nbio.image.is_blocking ∧
    (rarch_main_data_msg_queue_push ty msg msg2 prio duration flush
       s).nbio.image.is_blocking_on_processing =
      s.nbio.image.is_blocking_on_processing := by
  unfold rarch_main_data_msg_queue_push
  cases ty <;> simp

/-- C4: in every runloop state reachable from the zeroed initial state by
any sequence of pushes and ticks (under every collaborator behaviour), the
image sub-pipeline's `is_blocking` and `is_blocking_on_processing` are
never both true. -/
theorem image_blocking_flags_mutually_exclusive (s : data_runloop_t)
    (h : Reachable s) :
    ¬(s.nbio.image.is_blocking = true ∧
      s.nbio.image.is_blocking_on_processing = true) := by
  induction h with
  | init => simp [zero_runloop, zero_nbio_state, zero_image_state]
  | tick o _ ih =>
      show image_flags_ok (data_runloop_iterate o _).1.nbio
      unfold data_runloop_iterate rarch_main_data_nbio_iterate
      dsimp only
      exact flags_ok_image_phase o _ (flags_ok_file_phase o _ ih)
  | @push s0 ty msg msg2 prio duration flush _ ih =>
      have hp := push_nbio_image_flags_eq ty msg msg2 prio duration flush s0
      rw [hp.1, hp.2]
      exact ih

/-- C4 witness: the invariant applied at the concrete reachable state
`c1_s2` (a push followed by a tick). -/
theorem image_blocking_flags_mutually_exclusive_witness :
    ¬(c1_s2.nbio.image.is_blocking = true ∧
      c1_s2.nbio.image.is_blocking_on_processing = true) :=
  image_blocking_flags_mutually_exclusive c1_s2
    (Reachable.tick oracle0
      (Reachable.push data_type_t.DATA_TYPE_FILE "a.bin" "" 0 0 false
        Reachable.init))

theorem Effects.merge_zero (e : Effects) :
    Effects.merge e Effects.zero = e := by
  cases e
  simp [Effects.merge, Effects.zero]

theorem Effects.zero_merge (e : Effects) :
    Effects.merge Effects.zero e = e := by
  cases e
  simp [Effects.merge, Effects.zero]

theorem nbio_iterate_loop_le (o : Oracle) :
    ∀ (n i : Nat), (nbio_iterate_loop o i n).2 ≤ n := by
  intro n
  induction n with
  | zero => intro i; simp [nbio_iterate_loop]
  | succ k ih =>
      intro i
      unfold nbio_iterate_loop
      split
      · simp
      · dsimp only
        have := ih (i + 1)
        omega

theorem image_iterate_loop_le (o : Oracle) :
    ∀ (n i : Nat) (r : rpng_t), (image_iterate_loop o i r n).2.2 ≤ n := by
  intro n
  induction n with
  | zero => intro i r; simp [image_iterate_loop]
  | succ k ih =>
      intro i r
      unfold image_iterate_loop
      dsimp only
      split
      · simp
      · dsimp only
        exact Nat.succ_le_succ (ih (i + 1) _)

theorem image_process_loop_le (o : Oracle) :
    ∀ (n i : Nat) (r : rpng_t) (ti : texture_image),
      (image_process_loop o i r ti n).2.2.2 ≤ n := by
  intro n
  induction n with
  | zero => intro i r ti; simp [image_process_loop]
  | succ k ih =>
      intro i r ti
      unfold image_process_loop
      dsimp only
      split
      · simp
      · dsimp only
        have := ih (i + 1) (o.rpng_proc i r).2.1 (o.rpng_proc i r).2.2
        omega

theorem nbio_transfer_eff (o : Oracle) (n : nbio_handle_t) :
    (rarch_main_data_nbio_iterate_transfer o n).eff.nbio_iterate_calls ≤ 5 ∧
    (rarch_main_data_nbio_iterate_transfer o n).eff.rpng_iterate_calls = 0 ∧
    (rarch_main_data_nbio_iterate_transfer o n).eff.rpng_process_calls = 0 := by
  unfold rarch_main_data_nbio_iterate_transfer
  dsimp only
  (repeat' split) <;> simp [Effects.zero, nbio_iterate_loop_le o 5 0]

theorem nbio_parse_eff_zero (o : Oracle) (n : nbio_handle_t) :
    (rarch_main_data_nbio_iterate_parse o n).eff = Effects.zero := by
  unfold rarch_main_data_nbio_iterate_parse run_nbio_cb cb_nbio_default
    cb_nbio_image_menu_wallpaper
  dsimp only
  (repeat' split) <;> rfl

theorem file_phase_eff (o : Oracle) (n : nbio_handle_t) :
    (nbio_iterate_file_phase o n).2.nbio_iterate_calls ≤ 5 ∧
    (nbio_iterate_file_phase o n).2.rpng_iterate_calls = 0 ∧
    (nbio_iterate_file_phase o n).2.rpng_process_calls = 0 := by
  unfold nbio_iterate_file_phase
  dsimp only
  split
  · split
    · split
      · rw [nbio_parse_eff_zero, Effects.merge_zero]
        exact nbio_transfer_eff o n
      · exact nbio_transfer_eff o n
    · split
      · simp [Effects.zero]
      · simp [Effects.zero]
  · simp [Effects.zero]

theorem image_transfer_eff (o : Oracle) (n : nbio_handle_t) :
    (rarch_main_data_image_iterate_transfer o n).eff.rpng_iterate_calls ≤
      n.image.pos_increment ∧
    (rarch_main_data_image_iterate_transfer o n).eff.nbio_iterate_calls = 0 ∧
    (rarch_main_data_image_iterate_transfer o n).eff.rpng_process_calls = 0 ∧
    (rarch_main_data_image_iterate_transfer o n).st.image.pos_increment =
      n.image.pos_increment ∧
    (rarch_main_data_image_iterate_transfer o n).st.image.processing_pos_increment =
      n.image.processing_pos_increment := by
  unfold rarch_main_data_image_iterate_transfer
  dsimp only
  (repeat' split) <;>
    simp [Effects.zero,
      image_iterate_loop_le o n.image.pos_increment 0
        (n.image.handle.getD zero_rpng)]

theorem image_process_transfer_eff (o : Oracle) (n : nbio_handle_t) :
    (rarch_main_data_image_iterate_process_transfer o n).eff.rpng_process_calls ≤
      n.image.processing_pos_increment ∧
    (rarch_main_data_image_iterate_process_transfer o n).eff.nbio_iterate_calls = 0 ∧
    (rarch_main_data_image_iterate_process_transfer o n).eff.rpng_iterate_calls = 0 ∧
    (rarch_main_data_image_iterate_process_transfer o n).st.image.pos_increment =
      n.image.pos_increment ∧
    (rarch_main_data_image_iterate_process_transfer o n).st.image.processing_pos_increment =
      n.image.processing_pos_increment := by
  unfold rarch_main_data_image_iterate_process_transfer
  dsimp only
  (repeat' split) <;>
    simp [Effects.zero,
      image_process_loop_le o n.image.processing_pos_increment 0
        (n.image.handle.getD zero_rpng) n.image.ti]

theorem run_image_cb_eff (o : Oracle) (cb : image_cb_t) (n : nbio_handle_t) :
    (run_image_cb o cb n).eff.nbio_iterate_calls = 0 ∧
    (run_image_cb o cb n).eff.rpng_iterate_calls = 0 ∧
    (run_image_cb o cb n).eff.rpng_process_calls = 0 ∧
    (run_image_cb o cb n).st.image.pos_increment = n.image.pos_increment ∧
    (run_image_cb o cb n).st.image.processing_pos_increment =
      n.image.processing_pos_increment := by
  unfold run_image_cb cb_image_menu_wallpaper cb_image_menu_wallpaper_upload
  cases cb <;> dsimp only <;> (repeat' split) <;> simp [Effects.zero]

theorem image_transfer_parse_eff (o : Oracle) (n : nbio_handle_t) :
    (rarch_main_data_image_iterate_transfer_parse o n).eff.nbio_iterate_calls = 0 ∧
    (rarch_main_data_image_iterate_transfer_parse o n).eff.rpng_iterate_calls = 0 ∧
    (rarch_main_data_image_iterate_transfer_parse o n).eff.rpng_process_calls = 0 ∧
    (rarch_main_data_image_iterate_transfer_parse o n).st.image.pos_increment =
      n.image.pos_increment ∧
    (rarch_main_data_image_iterate_transfer_parse o n).st.image.processing_pos_increment =
      n.image.processing_pos_increment := by
  unfold rarch_main_data_image_iterate_transfer_parse
  split
  · exact run_image_cb_eff o _ n
  · simp [Effects.zero]

theorem image_process_transfer_parse_eff (o : Oracle) (n : nbio_handle_t) :
    (rarch_main_data_image_iterate_process_transfer_parse o n).eff.nbio_iterate_calls = 0 ∧
    (rarch_main_data_image_iterate_process_transfer_parse o n).eff.rpng_iterate_calls = 0 ∧
    (rarch_main_data_image_iterate_process_transfer_parse o n).eff.rpng_process_calls = 0 ∧
    (rarch_main_data_image_iterate_process_transfer_parse o n).st.image.pos_increment =
      n.image.pos_increment ∧
    (rarch_main_data_image_iterate_process_transfer_parse o n).st.image.processing_pos_increment =
      n.image.processing_pos_increment := by
  unfold rarch_main_data_image_iterate_process_transfer_parse
  split
  · exact run_image_cb_eff o _ n
  · simp [Effects.zero]

theorem image_poll_eff (n : nbio_handle_t) :
    (rarch_main_data_image_iterate_poll n).eff = Effects.zero ∧
    (rarch_main_data_image_iterate_poll n).st.image.pos_increment =
      n.image.pos_increment ∧
    (rarch_main_data_image_iterate_poll n).st.image.processing_pos_increment =
      n.image.processing_pos_increment := by
  unfold rarch_main_data_image_iterate_poll msg_queue_pull
  dsimp only
  (repeat' split) <;> simp

theorem image_phase_eff (o : Oracle) (n : nbio_handle_t) :
    (nbio_iterate_image_phase o n).2.nbio_iterate_calls = 0 ∧
    (nbio_iterate_image_phase o n).2.rpng_iterate_calls ≤
      (nbio_iterate_image_phase o n).1.image.pos_increment ∧
    (nbio_iterate_image_phase o n).2.rpng_process_calls ≤
      (nbio_iterate_image_phase o n).1.image.processing_pos_increment := by
  unfold nbio_iterate_image_phase
  dsimp only
  split
  · split
    · split
      · have h1 := image_process_transfer_eff o n
        have h2 := image_process_transfer_parse_eff o
          (rarch_main_data_image_iterate_process_transfer o n).st
        simp only [Effects.merge]
        refine ⟨by omega, by omega, ?_⟩
        rw [h2.2.2.2.2, h1.2.2.2.2]
        omega
      · have h1 := image_process_transfer_eff o n
        refine ⟨h1.2.1, ?_, ?_⟩
        · rw [h1.2.2.1]
          omega
        · rw [h1.2.2.2.2]
          exact h1.1
    · split
      · split
        · have h1 := image_transfer_eff o n
          have h2 := image_transfer_parse_eff o
            (rarch_main_data_image_iterate_transfer o n).st
          simp only [Effects.merge]
          refine ⟨by omega, ?_, by omega⟩
          rw [h2.2.2.2.1, h1.2.2.2.1]
          omega
        · have h1 := image_transfer_eff o n
          refine ⟨h1.2.1, ?_, ?_⟩
          · rw [h1.2.2.2.1]
            exact h1.1
          · rw [h1.2.2.1]
            omega
      · split
        · simp [Effects.zero]
        · simp [Effects.zero]
  · simp [Effects.zero]

/-- C5: within one tick the number of adapter calls made on behalf of each
pipeline phase is bounded by its step count: the NBIO transfer makes at
most `pos_increment = 5` `nbio_iterate` calls, the image parse phase at
most `image.pos_increment` `rpng_nbio_load_image_argb_iterate` calls, and
the image process phase at most `image.processing_pos_increment`
`rpng_nbio_load_image_argb_process` calls — both per transfer function and
summed over the whole `rarch_main_data_nbio_iterate` tick. -/
theorem adapter_calls_bounded_per_tick (o : Oracle) (n : nbio_handle_t) :
    (rarch_main_data_nbio_iterate_transfer o n).eff.nbio_iterate_calls ≤ 5 ∧
    (rarch_main_data_image_iterate_transfer o n).eff.rpng_iterate_calls ≤
      n.image.pos_increment ∧
    (rarch_main_data_image_iterate_process_transfer o n).eff.rpng_process_calls ≤
      n.image.processing_pos_increment ∧
    (rarch_main_data_nbio_iterate o n).2.nbio_iterate_calls ≤ 5 ∧
    (rarch_main_data_nbio_iterate o n).2.rpng_iterate_calls ≤
      (rarch_main_data_nbio_iterate o n).1.image.pos_increment ∧
    (rarch_main_data_nbio_iterate o n).2.rpng_process_calls ≤
      (rarch_main_data_nbio_iterate o n).1.image.processing_pos_increment := by
  refine ⟨(nbio_transfer_eff o n).1, (image_transfer_eff o n).1,
    (image_process_transfer_eff o n).1, ?_, ?_, ?_⟩ <;>
  · unfold rarch_main_data_nbio_iterate
    dsimp only
    have h1 := file_phase_eff o n
    have h2 := image_phase_eff o (nbio_iterate_file_phase o n).1
    simp only [Effects.merge]
    omega

theorem nbio_transfer_cb_eq (o : Oracle) (n : nbio_handle_t) :
    (rarch_main_data_nbio_iterate_transfer o n).st.cb = n.cb := by
  unfold rarch_main_data_nbio_iterate_transfer
  dsimp only
  (repeat' split) <;> rfl

theorem image_poll_handle_eq (n : nbio_handle_t) :
    (rarch_main_data_image_iterate_poll n).st.image.handle = n.image.handle := by
  unfold rarch_main_data_image_iterate_poll msg_queue_pull
  dsimp only
  (repeat' split) <;> rfl

theorem file_phase_new_image_handle (o : Oracle) (n : nbio_handle_t)
    (h0 : n.image.handle = none)
    (h1 : (nbio_iterate_file_phase o n).1.image.handle ≠ none) :
    n.cb = some nbio_cb_t.image_menu_wallpaper ∧ n.handle.isSome = true := by
  unfold nbio_iterate_file_phase at h1
  dsimp only at h1
  split at h1
  · rename_i hh
    split at h1
    · split at h1
      · unfold rarch_main_data_nbio_iterate_parse run_nbio_cb at h1
        rw [nbio_transfer_cb_eq] at h1
        cases hcb : n.cb with
        | none =>
            rw [hcb] at h1
            dsimp only at h1
            rw [nbio_transfer_image_eq, h0] at h1
            exact absurd rfl h1
        | some cb =>
            cases cb with
            | nbio_default =>
                rw [hcb] at h1
                dsimp only at h1
                unfold cb_nbio_default at h1
                dsimp only at h1
                rw [nbio_transfer_image_eq, h0] at h1
                exact absurd rfl h1
            | image_menu_wallpaper => exact ⟨rfl, hh⟩
      · rw [nbio_transfer_image_eq, h0] at h1
        exact absurd rfl h1
    · split at h1
      · rw [nbio_parse_free_image_eq, h0] at h1
        exact absurd rfl h1
      · rw [h0] at h1
        exact absurd rfl h1
  · rw [nbio_poll_image_eq, h0] at h1
    exact absurd rfl h1

theorem image_phase_keeps_no_handle (o : Oracle) (n : nbio_handle_t)
    (h0 : n.image.handle = none) :
    (nbio_iterate_image_phase o n).1.image.handle = none := by
  unfold nbio_iterate_image_phase
  dsimp only
  split
  · rename_i hh
    rw [h0] at hh
    simp at hh
  · rw [image_poll_handle_eq]
    exact h0

/-- C7: an image request is routed through NBIO — the image poll with a
queued path and no live decode clears the nbio queue and pushes that same
path onto it (the decoder handle untouched); and across a whole
`rarch_main_data_nbio_iterate` tick, the only way the decoder handle can
go from `none` to live is that the NBIO completion callback
`cb_nbio_image_menu_wallpaper` was bound and a live NBIO transfer ran it —
never directly from an image-queue message. -/
theorem image_request_routes_through_nbio :
    (∀ (n : nbio_handle_t) (path : String) (rest : List String),
      n.image.msg_queue.msgs = path :: rest → n.image.handle = none →
      rarch_main_data_image_iterate_poll n =
        { ret := 0,
          st := { n with
                  msg_queue := ⟨[path]⟩,
                  image := { n.image with msg_queue := ⟨rest⟩ } },
          eff := Effects.zero }) ∧
    (∀ (o : Oracle) (n : nbio_handle_t),
      n.image.handle = none →
      (rarch_main_data_nbio_iterate o n).1.image.handle ≠ none →
      n.cb = some nbio_cb_t.image_menu_wallpaper ∧ n.handle.isSome = true) := by
  constructor
  · intro n path rest hq hh
    unfold rarch_main_data_image_iterate_poll
    simp only [msg_queue_pull, hq, hh]
    simp [msg_queue_push, msg_queue_clear, MSG_QUEUE_CAPACITY]
  · intro o n h0 h1
    unfold rarch_main_data_nbio_iterate at h1
    dsimp only at h1
    by_cases hf : (nbio_iterate_file_phase o n).1.image.handle = none
    · exact absurd (image_phase_keeps_no_handle o _ hf) h1
    · exact file_phase_new_image_handle o n h0 hf

/-- C7 witness: both conjuncts applied at concrete states — the poll at a
state with a queued image request, and the tick conjunct at a state whose
NBIO transfer completes with the wallpaper callback bound. -/
theorem image_request_routes_through_nbio_witness :
    rarch_main_data_image_iterate_poll c7_poll_state =
      { ret := 0,
        st := { c7_poll_state with
                msg_queue := ⟨["wall.png"]⟩,
                image := { c7_poll_state.image with msg_queue := ⟨[]⟩ } },
        eff := Effects.zero } ∧
    (c7_state.cb = some nbio_cb_t.image_menu_wallpaper ∧
     c7_state.handle.isSome = true) :=
  ⟨image_request_routes_through_nbio.1 c7_poll_state "wall.png" [] rfl rfl,
   image_request_routes_through_nbio.2 oracle_end_now c7_state rfl
     (by decide)⟩
